import Mathlib

/-!
Verification of the risk engine of the `trading-bot` repository.

The Python sources under `src/src/risk/` (`position_sizer.py`, `stop_loss.py`,
`portfolio_risk.py`, `manager.py`), `src/src/models/position.py` and
`src/src/config/settings.py` are shallowly embedded below.  Machine floats are
modelled by exact rationals (`ℚ`); the Pearson correlation coefficient, the one
quantity whose computation needs a square root, is modelled over `ℝ` together
with a computable decision procedure for the comparison the code performs on it.
Python's `int(...)` truncation toward zero is modelled by `pyTrunc`, and
Python's truthiness test on an optional float (`if x:`) by `truthy`.
-/

namespace TradingBot

/-! ### Configuration (src/src/config/settings.py, default values) -/

def max_position_size : ℚ := 2/100
def max_portfolio_exposure : ℚ := 1/2
def daily_loss_limit : ℚ := 5/100
def max_drawdown_limit : ℚ := 15/100
def max_correlation : ℚ := 7/10
def stop_loss_percentage : ℚ := 2/100
def take_profit_percentage : ℚ := 5/100
def trailing_stop_percentage : ℚ := 3/100

/-! ### Python-semantics helpers -/

/-- Python `int(q)` on a float: truncation toward zero. -/
def pyTrunc (q : ℚ) : ℤ := if 0 ≤ q then ⌊q⌋ else -⌊-q⌋

/-- Python truthiness of an optional float: `None` and `0.0` are falsy. -/
def truthy : Option ℚ → Bool
  | none => false
  | some x => x ≠ 0

/-! ### KellyCriterion (src/src/risk/position_sizer.py, lines 10-40) -/

/-- `KellyCriterion.calculate(win_rate, avg_win, avg_loss, fraction)`. -/
def KellyCriterion.calculate (win_rate avg_win avg_loss fraction : ℚ) : ℚ :=
  if avg_loss = 0 ∨ win_rate = 0 ∨ win_rate = 1 then 2/100
  else
    let wl := avg_win / avg_loss
    let kelly := (win_rate * wl - (1 - win_rate)) / wl
    let scaled := kelly * fraction
    max 0 (min scaled (20/100))

/-! ### PositionSizer (src/src/risk/position_sizer.py, lines 43-131) -/

/-- `PositionSizer._fixed_percentage_size`. -/
def fixed_percentage_size (price account_value risk_pct : ℚ) : ℤ :=
  pyTrunc (account_value * risk_pct / price)

/-- `PositionSizer._volatility_adjusted_size`. -/
def volatility_adjusted_size (price account_value volatility max_risk : ℚ) : ℤ :=
  if volatility = 0 then fixed_percentage_size price account_value max_risk
  else pyTrunc (account_value * max_risk / (2 * volatility))

/-- `PositionSizer._kelly_size`. -/
def kelly_size (price account_value kelly_fraction : ℚ) : ℤ :=
  pyTrunc (account_value * kelly_fraction / price)

/-- The labelled `methods` list built inside `PositionSizer.calculate_size`.
The volatility method is appended only when `volatility` is truthy
(`if volatility:`), and the Kelly method only when all three statistics are
truthy (`if win_rate and avg_win and avg_loss:`). -/
def sizingMethods (price account_value max_risk_per_trade : ℚ)
    (volatility win_rate avg_win avg_loss : Option ℚ) : List (String × ℤ) :=
  [("Fixed %", fixed_percentage_size price account_value max_risk_per_trade)]
    ++ (if truthy volatility then
          [("Volatility",
            volatility_adjusted_size price account_value (volatility.getD 0)
              max_risk_per_trade)]
        else [])
    ++ (if truthy win_rate && truthy avg_win && truthy avg_loss then
          [("Kelly",
            kelly_size price account_value
              (KellyCriterion.calculate (win_rate.getD 0) (avg_win.getD 0)
                (avg_loss.getD 0) (1/2)))]
        else [])

/-- `PositionSizer.calculate_size`: the most conservative (minimal) candidate,
floored at one share. -/
def calculate_size (price account_value max_risk_per_trade : ℚ)
    (volatility win_rate avg_win avg_loss : Option ℚ) : ℤ :=
  let methods := sizingMethods price account_value max_risk_per_trade
    volatility win_rate avg_win avg_loss
  match (methods.map Prod.snd).min? with
  | some size => max 1 size
  | none => 1

/-! ### StopLossManager (src/src/risk/stop_loss.py) -/

/-- Exit reasons produced by `StopLossManager.should_exit`; the payload is the
P&L fraction interpolated into the Python reason string. -/
inductive ExitReason where
  | stopLoss (pnl_pct : ℚ)
  | takeProfit (pnl_pct : ℚ)
deriving DecidableEq

/-- `StopLossManager._check_long_exit`. -/
def check_long_exit (entry_price current_price : ℚ) : Bool × Option ExitReason :=
  let pnl_pct := (current_price - entry_price) / entry_price
  if pnl_pct ≤ -stop_loss_percentage then (true, some (.stopLoss pnl_pct))
  else if pnl_pct ≥ take_profit_percentage then (true, some (.takeProfit pnl_pct))
  else (false, none)

/-- `StopLossManager._check_short_exit`. -/
def check_short_exit (entry_price current_price : ℚ) : Bool × Option ExitReason :=
  let pnl_pct := (entry_price - current_price) / entry_price
  if pnl_pct ≤ -stop_loss_percentage then (true, some (.stopLoss pnl_pct))
  else if pnl_pct ≥ take_profit_percentage then (true, some (.takeProfit pnl_pct))
  else (false, none)

/-- `StopLossManager.should_exit` (the unused `quantity` argument is kept). -/
def should_exit (entry_price current_price quantity : ℚ) (side : String) :
    Bool × Option ExitReason :=
  if side.toLower = "buy" ∨ side.toLower = "long" then
    check_long_exit entry_price current_price
  else
    check_short_exit entry_price current_price

/-- The `trailing_stops` dictionary of `StopLossManager` (symbol → stop price).
The companion `entry_times` map only feeds `check_time_stop`, which no claim
touches, so it is not modelled. -/
def TrailingStops := String → Option ℚ

/-- `StopLossManager.register_entry` (its effect on `trailing_stops`). -/
def register_entry (stops : TrailingStops) (symbol : String) (entry_price : ℚ) :
    TrailingStops :=
  fun s => if s = symbol then some (entry_price * (1 - trailing_stop_percentage))
           else stops s

/-- `StopLossManager.update_trailing_stop`. -/
def update_trailing_stop (stops : TrailingStops) (symbol : String)
    (current_price : ℚ) : TrailingStops :=
  match stops symbol with
  | none =>
      fun s => if s = symbol then
                 some (current_price * (1 - trailing_stop_percentage))
               else stops s
  | some old =>
      let new_stop := current_price * (1 - trailing_stop_percentage)
      if new_stop > old then
        fun s => if s = symbol then some new_stop else stops s
      else stops

/-! ### Data model (src/src/models, and the queries issued by the risk code) -/

/-- One `PerformanceMetrics` row (the fields the risk manager reads).  A SQL
`NULL` float surfaces in Python as a falsy value, like `0.0`, everywhere the
code tests it with `if x:`/`if x`, so nullable numeric columns are modelled
as `ℚ` with `0` standing for both `0.0` and `NULL`. -/
structure MetricRow where
  total_pnl : ℚ
  portfolio_value : ℚ
  current_drawdown : ℚ
  exposure : ℚ
deriving DecidableEq

/-- One `Position` row (src/src/models/position.py); `current_price` is a
nullable column that the code tests for truthiness, so it is kept optional. -/
structure PositionRow where
  symbol : String
  quantity : ℚ
  avg_cost : ℚ
  current_price : Option ℚ
deriving DecidableEq

/-- `Position.market_value` (src/src/models/position.py lines 26-31):
`quantity * current_price` when `current_price` is truthy, otherwise
`quantity * avg_cost`. -/
def PositionRow.market_value (p : PositionRow) : ℚ :=
  match p.current_price with
  | some cp => if cp ≠ 0 then p.quantity * cp else p.quantity * p.avg_cost
  | none => p.quantity * p.avg_cost

/-- The database state visible to one risk-engine call.  `closes sym d` is the
ordered (oldest-first) list of closing prices returned by
`_get_price_history(session, sym, days=d)`; `recentMetrics` is the last-30-days
`PerformanceMetrics` query result, ordered newest first as in the code. -/
structure Db where
  todayMetrics : Option MetricRow
  recentMetrics : List MetricRow
  positions : List PositionRow
  closes : String → Nat → List ℚ

/-- `PortfolioRisk._get_price_history`. -/
def get_price_history (db : Db) (symbol : String) (days : Nat) : List ℚ :=
  db.closes symbol days

/-! ### PortfolioRisk (src/src/risk/portfolio_risk.py) -/

/-- `np.diff(prices) / prices[:-1]`: day-over-day simple returns. -/
def simpleReturns (prices : List ℚ) : List ℚ :=
  List.zipWith (fun prev next => (next - prev) / prev) prices prices.tail

/-- Arithmetic mean (`ℚ` convention: `[]` gives `0`). -/
def mean (xs : List ℚ) : ℚ := xs.sum / xs.length

/-- The list of deviations from the mean. -/
def centered (xs : List ℚ) : List ℚ := xs.map fun x => x - mean xs

/-- Sum of pointwise products. -/
def dotQ (xs ys : List ℚ) : ℚ := (List.zipWith (· * ·) xs ys).sum

/-- Centered second moment of a pair of equal-length samples:
`Sxy = Σ (x-x̄)(y-ȳ)`. -/
def sXY (xs ys : List ℚ) : ℚ := dotQ (centered xs) (centered ys)

/-- `np.corrcoef(xs, ys)[0,1]` with the code's NaN-to-0 mapping: the Pearson
coefficient `Sxy / (√Sxx · √Syy)`, and `0` when either variance vanishes
(exactly the case where `np.corrcoef` yields NaN and
`_calculate_correlation` substitutes `0.0`). -/
noncomputable def pearson (xs ys : List ℚ) : ℝ :=
  if sXY xs xs = 0 ∨ sXY ys ys = 0 then 0
  else (sXY xs ys : ℝ) / (Real.sqrt (sXY xs xs : ℚ) * Real.sqrt (sXY ys ys : ℚ))

/-- `PortfolioRisk._calculate_correlation(prices1, prices2)`: empty series and
fewer than 5 aligned points give `0.0`; otherwise the Pearson correlation of
the simple returns of the aligned (`[-min_len:]`) price windows. -/
noncomputable def calculate_correlation (prices1 prices2 : List ℚ) : ℝ :=
  if prices1 = [] ∨ prices2 = [] then 0
  else
    let min_len := min prices1.length prices2.length
    let p1 := prices1.drop (prices1.length - min_len)
    let p2 := prices2.drop (prices2.length - min_len)
    if min_len < 5 then 0
    else
      let returns1 := simpleReturns p1
      let returns2 := simpleReturns p2
      if 0 < returns1.length ∧ 0 < returns2.length then pearson returns1 returns2
      else 0

/-- Computable decision of `|pearson xs ys| > c` (for `0 ≤ c`): with both
variances positive this is `Sxy² > c²·Sxx·Syy`; a vanishing variance makes the
coefficient `0`, never above a nonnegative bound. -/
def pearsonAbsGT (c : ℚ) (xs ys : List ℚ) : Bool :=
  if sXY xs xs = 0 ∨ sXY ys ys = 0 then false
  else sXY xs ys ^ 2 > c ^ 2 * (sXY xs xs * sXY ys ys)

/-- Computable decision of `|calculate_correlation prices1 prices2| > c`
(for `0 ≤ c`), mirroring `calculate_correlation` branch for branch. -/
def correlationAbsGT (c : ℚ) (prices1 prices2 : List ℚ) : Bool :=
  if prices1 = [] ∨ prices2 = [] then false
  else
    let min_len := min prices1.length prices2.length
    let p1 := prices1.drop (prices1.length - min_len)
    let p2 := prices2.drop (prices2.length - min_len)
    if min_len < 5 then false
    else
      let returns1 := simpleReturns p1
      let returns2 := simpleReturns p2
      if 0 < returns1.length ∧ 0 < returns2.length then
        pearsonAbsGT c returns1 returns2
      else false

/-- `PortfolioRisk.check_exposure_limit`. -/
def check_exposure_limit (new_position_value account_value : ℚ) : Bool :=
  new_position_value / account_value ≤ max_portfolio_exposure

/-- `PortfolioRisk.check_correlation_limit(session, new_symbol)`.  The held
symbols are the positions with `quantity > 0`; with no such position, or no
price history for `new_symbol`, the `correlations` dict is empty and the check
passes; a held symbol with no price history is skipped
(`_calculate_correlations`' `continue`); otherwise the check fails on the
first held symbol whose `|correlation|` exceeds `max_correlation`. -/
def check_correlation_limit (db : Db) (new_symbol : String) : Bool :=
  let positions := db.positions.filter fun p => 0 < p.quantity
  if positions = [] then true
  else
    let new_prices := get_price_history db new_symbol 30
    if new_prices = [] then true
    else
      (positions.map fun p => p.symbol).all fun sym =>
        let existing_prices := get_price_history db sym 30
        if existing_prices = [] then true
        else !correlationAbsGT max_correlation new_prices existing_prices

/-- `np.var(xs)` (`ddof = 0`). -/
def npVar (xs : List ℚ) : ℚ := sXY xs xs / xs.length

/-- `np.cov(xs, ys)[0,1]` (`ddof = 1`).  For a single observation NumPy yields
NaN (`0/0`); the `ℚ` convention gives `0`, and the beta code only consumes the
value when the benchmark variance is positive, which forces `2 ≤ n` there. -/
def npCov (xs ys : List ℚ) : ℚ := sXY xs ys / ((xs.length : ℚ) - 1)

/-- The weighted-return observations pooled by `PortfolioRisk.calculate_var`:
for each open position whose 30-day window has at least 2 prices, the simple
returns scaled by `quantity * current_price if current_price else 0`. -/
def varPooledReturns (db : Db) : List ℚ :=
  ((db.positions.filter fun p => 0 < p.quantity).map fun p =>
    let prices := get_price_history db p.symbol 30
    if 1 < prices.length then
      let position_value : ℚ :=
        match p.current_price with
        | some cp => if cp ≠ 0 then p.quantity * cp else 0
        | none => 0
      (simpleReturns prices).map fun r => r * position_value
    else []).flatten

/-- `np.percentile(xs, q)` with the default linear interpolation, for
`0 ≤ q ≤ 100` on a nonempty sample: index `h = q/100·(n-1)` into the sorted
sample, interpolating between the two neighbouring order statistics. -/
def percentile (xs : List ℚ) (q : ℚ) : ℚ :=
  let s := xs.insertionSort (· ≤ ·)
  let h := q / 100 * ((s.length : ℚ) - 1)
  let i := (⌊h⌋).toNat
  let lo := s.getD i 0
  let hi := s.getD (i + 1) lo
  lo + (h - ⌊h⌋) * (hi - lo)

/-- `PortfolioRisk.calculate_var(session, confidence)`. -/
def calculate_var (db : Db) (confidence : ℚ) : ℚ :=
  if db.positions.filter (fun p => 0 < p.quantity) = [] then 0
  else
    let portfolio_returns := varPooledReturns db
    if portfolio_returns = [] then 0
    else |percentile portfolio_returns ((1 - confidence) * 100)|

/-- Modelled from the spec: the variant of `calculate_var` that §4.4 of the
spec describes, in which each position's return series is scaled by the §3
market value (`quantity ×` last price, falling back to average cost) instead
of the code's `quantity * current_price if current_price else 0`.  Kept only
to compare the spec's wording against the code. -/
def calculate_var_per_spec (db : Db) (confidence : ℚ) : ℚ :=
  if db.positions.filter (fun p => 0 < p.quantity) = [] then 0
  else
    let portfolio_returns :=
      ((db.positions.filter fun p => 0 < p.quantity).map fun p =>
        let prices := get_price_history db p.symbol 30
        if 1 < prices.length then
          (simpleReturns prices).map fun r => r * p.market_value
        else []).flatten
    if portfolio_returns = [] then 0
    else |percentile portfolio_returns ((1 - confidence) * 100)|

/-- The weighted per-position betas accumulated by
`PortfolioRisk.calculate_portfolio_beta`: positions with fewer than 2 price
points, and positions whose aligned benchmark window has zero variance,
contribute nothing. -/
def portfolioBetaTerms (db : Db) (benchmark_returns : List ℚ)
    (total_value : ℚ) : List ℚ :=
  (db.positions.filter fun p => 0 < p.quantity).filterMap fun p =>
    let prices := get_price_history db p.symbol 90
    if 1 < prices.length then
      let returns := simpleReturns prices
      let min_len := min returns.length benchmark_returns.length
      let r := returns.drop (returns.length - min_len)
      let br := benchmark_returns.drop (benchmark_returns.length - min_len)
      if 0 < npVar br then
        some (npCov r br / npVar br * (p.market_value / total_value))
      else none
    else none

/-- `PortfolioRisk.calculate_portfolio_beta(session, benchmark_symbol)`. -/
def calculate_portfolio_beta (db : Db) (benchmark_symbol : String) : ℚ :=
  let positions := db.positions.filter fun p => 0 < p.quantity
  if positions = [] then 0
  else
    let benchmark_prices := get_price_history db benchmark_symbol 90
    if benchmark_prices.length < 2 then 1
    else
      let benchmark_returns := simpleReturns benchmark_prices
      let total_value := (positions.map PositionRow.market_value).sum
      let portfolio_betas := portfolioBetaTerms db benchmark_returns total_value
      if portfolio_betas = [] then 1 else portfolio_betas.sum

/-! ### RiskManager (src/src/risk/manager.py) -/

/-- `RiskManager._check_daily_loss_limit`.  `none` models the uncaught
exception Python raises at `abs(metrics.total_pnl) / metrics.portfolio_value`
when today's row has a negative P&L and a zero (`ZeroDivisionError`) or `NULL`
(`TypeError`, `0` in this model) portfolio value. -/
def check_daily_loss_limit (db : Db) : Option Bool :=
  match db.todayMetrics with
  | some m =>
      if m.total_pnl < 0 then
        if m.portfolio_value = 0 then none
        else if |m.total_pnl| / m.portfolio_value > daily_loss_limit then
          some false
        else some true
      else some true
  | none => some true

/-- `RiskManager._check_max_drawdown`.  `none` models the uncaught
`ValueError` Python's `max()` raises when the 30-day window is nonempty but
every row has a falsy `portfolio_value`. -/
def check_max_drawdown (db : Db) : Option Bool :=
  match db.recentMetrics with
  | [] => some true
  | first :: rest =>
      let vals := ((first :: rest).filter fun m => m.portfolio_value ≠ 0).map
        fun m => m.portfolio_value
      match vals.max? with
      | none => none
      | some peak_value =>
          let current_value :=
            if first.portfolio_value ≠ 0 then first.portfolio_value
            else peak_value
          if 0 < peak_value ∧
              (peak_value - current_value) / peak_value > max_drawdown_limit
          then some false else some true

/-- The rejection reasons of `RiskManager.can_open_position`; payloads carry
the percentage interpolated into the Python f-string. -/
inductive RejectReason where
  | dailyLoss
  | drawdown
  | positionSize (max_pct : ℚ)
  | exposure (max_pct : ℚ)
  | correlation
deriving DecidableEq

/-- `RiskManager.can_open_position`: the five gates in order, short-circuiting
on the first failure.  `none` models an uncaught exception escaping the
daily-loss gate (division by zero/`NULL`) or the drawdown gate (`max()` on an
empty sequence). -/
def can_open_position (db : Db) (symbol side : String)
    (proposed_quantity price account_value : ℚ) :
    Option (Bool × Option RejectReason) :=
  match check_daily_loss_limit db with
  | none => none
  | some dl =>
    if dl = false then
      some (false, some .dailyLoss)
    else
    match check_max_drawdown db with
    | none => none
    | some dd =>
        if dd = false then some (false, some .drawdown)
        else
          let position_value := proposed_quantity * price
          if position_value > account_value * max_position_size then
            some (false, some (.positionSize (max_position_size * 100)))
          else if !check_exposure_limit position_value account_value then
            some (false, some (.exposure (max_portfolio_exposure * 100)))
          else if !check_correlation_limit db symbol then
            some (false, some .correlation)
          else
            some (true, none)

/-- The record returned by `RiskManager.get_risk_summary`. -/
structure RiskSummary where
  portfolio_value : ℚ
  daily_pnl : ℚ
  daily_pnl_pct : ℚ
  current_drawdown : ℚ
  current_drawdown_pct : ℚ
  exposure : ℚ
  exposure_pct : ℚ
  daily_loss_limit_pct : ℚ
  max_drawdown_limit_pct : ℚ
  max_exposure_limit_pct : ℚ
  can_trade : Bool
deriving DecidableEq

/-- `RiskManager.get_risk_summary`.  Each `x if portfolio_value else 0`
guard becomes a test against `0`, so the record's own field arithmetic never
divides by zero.  `can_trade` is Python's
`self._check_daily_loss_limit() and self._check_max_drawdown()` with `and`'s
short-circuit; an exception escaping either check (the daily-loss division on
a negative-P&L/zero-value day, or the drawdown gate's `max()` error once the
daily check passes) escapes `get_risk_summary` itself, modelled as `none`:
no record is returned at those store states. -/
def get_risk_summary (db : Db) : Option RiskSummary :=
  let portfolio_value := match db.todayMetrics with
    | some m => m.portfolio_value
    | none => 0
  let daily_pnl := match db.todayMetrics with
    | some m => m.total_pnl
    | none => 0
  let current_drawdown := match db.todayMetrics with
    | some m => m.current_drawdown
    | none => 0
  let exposure := match db.todayMetrics with
    | some m => m.exposure
    | none => 0
  let can_trade : Option Bool :=
    match check_daily_loss_limit db with
    | none => none
    | some false => some false
    | some true => check_max_drawdown db
  match can_trade with
  | none => none
  | some ct =>
      some ⟨portfolio_value, daily_pnl,
        if portfolio_value ≠ 0 then daily_pnl / portfolio_value * 100 else 0,
        current_drawdown,
        if portfolio_value ≠ 0 then current_drawdown / portfolio_value * 100
        else 0,
        exposure,
        if portfolio_value ≠ 0 then exposure / portfolio_value * 100 else 0,
        daily_loss_limit * 100, max_drawdown_limit * 100,
        max_portfolio_exposure * 100, ct⟩

/-! ### Shared helper lemmas -/

/-- A sum of pointwise self-products is nonnegative. -/
lemma dotQ_self_nonneg (xs : List ℚ) : 0 ≤ dotQ xs xs := by
  unfold dotQ
  induction xs with
  | nil => simp
  | cons a t ih =>
      simp only [List.zipWith, List.sum_cons]
      exact add_nonneg (mul_self_nonneg a) ih

/-- The centered second moment `Sxx` is nonnegative. -/
lemma sXY_self_nonneg (xs : List ℚ) : 0 ≤ sXY xs xs := dotQ_self_nonneg _

/-! ### C3: KellyCriterion.calculate -/

/-- C3: `KellyCriterion.calculate` returns exactly `0.02` on degenerate inputs
(`avg_loss = 0`, `win_rate = 0` or `win_rate = 1`); otherwise it returns the
half-Kelly value clamped into `[0, 0.20]`; in all cases the result lies in
`[0, 0.20]`. -/
theorem kelly_calculate_contract (wr aw al f : ℚ) :
    ((al = 0 ∨ wr = 0 ∨ wr = 1) → KellyCriterion.calculate wr aw al f = 2/100) ∧
    (¬(al = 0 ∨ wr = 0 ∨ wr = 1) →
      KellyCriterion.calculate wr aw al f =
        max 0 (min ((wr * (aw / al) - (1 - wr)) / (aw / al) * f) (20/100))) ∧
    0 ≤ KellyCriterion.calculate wr aw al f ∧
    KellyCriterion.calculate wr aw al f ≤ 20/100 := by
  unfold KellyCriterion.calculate
  by_cases h : al = 0 ∨ wr = 0 ∨ wr = 1
  · rw [if_pos h]
    exact ⟨fun _ => rfl, fun hc => absurd h hc, by norm_num, by norm_num⟩
  · rw [if_neg h]
    refine ⟨fun hc => absurd hc h, fun _ => rfl, le_max_left _ _, ?_⟩
    exact max_le (by norm_num) (min_le_right _ _)

/-- Witness for C3 at concrete inputs. -/
theorem kelly_calculate_contract_witness :
    KellyCriterion.calculate (3/5) 150 0 (1/2) = 2/100 ∧
    KellyCriterion.calculate (3/5) 150 100 (1/2) =
      max 0 (min (((3/5) * (150 / 100) - (1 - 3/5)) / (150 / 100) * (1/2))
        (20/100)) ∧
    0 ≤ KellyCriterion.calculate (3/5) 150 100 (1/2) ∧
    KellyCriterion.calculate (3/5) 150 100 (1/2) ≤ 20/100 :=
  ⟨(kelly_calculate_contract (3/5) 150 0 (1/2)).1 (Or.inl rfl),
   (kelly_calculate_contract (3/5) 150 100 (1/2)).2.1 (by norm_num),
   (kelly_calculate_contract (3/5) 150 100 (1/2)).2.2.1,
   (kelly_calculate_contract (3/5) 150 100 (1/2)).2.2.2⟩

/-! ### C4: PositionSizer.calculate_size -/

/-- C4: for positive price and account value, `calculate_size` returns
`max 1 (minimum of the computed candidate sizes)` (the candidate list is never
empty), hence at least one share; in the pure fixed-fraction case
`price = 100, account_value = 10000, max_risk_per_trade = 0.02` it returns
exactly `2`. -/
theorem calculate_size_min_conservative (price account_value max_risk : ℚ)
    (hp : 0 < price) (ha : 0 < account_value) (vol wr aw al : Option ℚ) :
    calculate_size price account_value max_risk vol wr aw al =
      max 1 (((sizingMethods price account_value max_risk vol wr aw al).map
        Prod.snd).min?.getD 1) ∧
    (((sizingMethods price account_value max_risk vol wr aw al).map
        Prod.snd).min?).isSome = true ∧
    1 ≤ calculate_size price account_value max_risk vol wr aw al ∧
    calculate_size 100 10000 (2/100) none none none none = 2 := by
  refine ⟨rfl, rfl, ?_, by with_unfolding_all decide⟩
  have h : calculate_size price account_value max_risk vol wr aw al =
      max 1 (((sizingMethods price account_value max_risk vol wr aw al).map
        Prod.snd).min?.getD 1) := rfl
  rw [h]
  exact le_max_left _ _

/-- Witness for C4 at concrete inputs. -/
theorem calculate_size_min_conservative_witness :
    1 ≤ calculate_size 100 10000 (2/100) none none none none ∧
    calculate_size 100 10000 (2/100) none none none none = 2 :=
  ⟨(calculate_size_min_conservative 100 10000 (2/100) (by norm_num)
      (by norm_num) none none none none).2.2.1,
   (calculate_size_min_conservative 100 10000 (2/100) (by norm_num)
      (by norm_num) none none none none).2.2.2⟩

/-! ### C6: inclusion of the Kelly candidate -/

/-- C6 counterexample: with `win_rate = 0`, `avg_win = 100`, `avg_loss = 50`
all three statistics are supplied, yet no Kelly candidate is among the methods
being minimized — `if win_rate and avg_win and avg_loss:` treats the supplied
`0` as falsy. -/
theorem kelly_candidate_zero_cex :
    ¬ ("Kelly" ∈ (sizingMethods 100 10000 (2/100) none (some 0) (some 100)
      (some 50)).map Prod.fst) := by with_unfolding_all decide

/-- C6 amended: the Kelly candidate is among the sizes being minimized iff all
three of `win_rate`, `avg_win`, `avg_loss` are supplied AND truthy (non-`None`
and nonzero); in that case its value is `kelly_size` of the
`KellyCriterion.calculate` fraction. -/
theorem kelly_candidate_iff_truthy (price account_value max_risk : ℚ)
    (vol wr aw al : Option ℚ) :
    ("Kelly" ∈ (sizingMethods price account_value max_risk vol wr aw al).map
        Prod.fst ↔
      (truthy wr = true ∧ truthy aw = true ∧ truthy al = true)) ∧
    (truthy wr = true → truthy aw = true → truthy al = true →
      ("Kelly", kelly_size price account_value
          (KellyCriterion.calculate (wr.getD 0) (aw.getD 0) (al.getD 0)
            (1/2))) ∈
        sizingMethods price account_value max_risk vol wr aw al) := by
  constructor
  · by_cases hk : (truthy wr && truthy aw && truthy al) = true
    · have hsplit := hk
      rw [Bool.and_eq_true, Bool.and_eq_true] at hsplit
      by_cases hv : truthy vol = true <;>
        simp [sizingMethods, hv, hk, hsplit.1, hsplit.2, hsplit.2]
    · have hsplit : ¬(truthy wr = true ∧ truthy aw = true ∧ truthy al = true) := by
        intro ⟨h1, h2, h3⟩
        exact hk (by rw [h1, h2, h3]; rfl)
      by_cases hv : truthy vol = true <;>
        simp [sizingMethods, hv, hk, hsplit]
  · intro h1 h2 h3
    have hk : (truthy wr && truthy aw && truthy al) = true := by
      rw [h1, h2, h3]; rfl
    by_cases hv : truthy vol = true <;> simp [sizingMethods, hv, hk]

/-- Witness for C6's amended theorem at concrete truthy statistics. -/
theorem kelly_candidate_iff_truthy_witness :
    ("Kelly", kelly_size 100 10000
        (KellyCriterion.calculate (11/20) 150 100 (1/2))) ∈
      sizingMethods 100 10000 (2/100) none (some (11/20)) (some 150)
        (some 100) :=
  (kelly_candidate_iff_truthy 100 10000 (2/100) none (some (11/20)) (some 150)
    (some 100)).2 (by with_unfolding_all decide) (by with_unfolding_all decide)
    (by with_unfolding_all decide)

/-! ### C5: StopLossManager.should_exit -/

/-- C5: with the configured thresholds, `should_exit` signals a stop-loss exit
iff the P&L fraction is at most `-0.02`, a take-profit exit iff it is at least
`0.05`, and no exit otherwise; short positions use the mirrored fraction.  The
configured concrete cases: long 100→97.5 stops out, 100→106 takes profit,
100→101 holds. -/
theorem should_exit_thresholds (e c q : ℚ) (side : String) :
    ((side.toLower = "buy" ∨ side.toLower = "long") →
      (should_exit e c q side = (true, some (.stopLoss ((c - e) / e))) ↔
        (c - e) / e ≤ -stop_loss_percentage) ∧
      (should_exit e c q side = (true, some (.takeProfit ((c - e) / e))) ↔
        (c - e) / e ≥ take_profit_percentage) ∧
      (should_exit e c q side = (false, none) ↔
        (¬((c - e) / e ≤ -stop_loss_percentage) ∧
         ¬((c - e) / e ≥ take_profit_percentage)))) ∧
    (¬(side.toLower = "buy" ∨ side.toLower = "long") →
      (should_exit e c q side = (true, some (.stopLoss ((e - c) / e))) ↔
        (e - c) / e ≤ -stop_loss_percentage) ∧
      (should_exit e c q side = (true, some (.takeProfit ((e - c) / e))) ↔
        (e - c) / e ≥ take_profit_percentage) ∧
      (should_exit e c q side = (false, none) ↔
        (¬((e - c) / e ≤ -stop_loss_percentage) ∧
         ¬((e - c) / e ≥ take_profit_percentage)))) ∧
    should_exit 100 (195/2) 1 "buy" = (true, some (.stopLoss (-(1/40)))) ∧
    should_exit 100 106 1 "buy" = (true, some (.takeProfit (3/50))) ∧
    should_exit 100 101 1 "buy" = (false, none) := by
  have key : ∀ pnl : ℚ,
      ((if pnl ≤ -stop_loss_percentage then
          ((true, some (.stopLoss pnl)) : Bool × Option ExitReason)
        else if pnl ≥ take_profit_percentage then (true, some (.takeProfit pnl))
        else (false, none)) = (true, some (.stopLoss pnl)) ↔
        pnl ≤ -stop_loss_percentage) ∧
      ((if pnl ≤ -stop_loss_percentage then
          ((true, some (.stopLoss pnl)) : Bool × Option ExitReason)
        else if pnl ≥ take_profit_percentage then (true, some (.takeProfit pnl))
        else (false, none)) = (true, some (.takeProfit pnl)) ↔
        pnl ≥ take_profit_percentage) ∧
      ((if pnl ≤ -stop_loss_percentage then
          ((true, some (.stopLoss pnl)) : Bool × Option ExitReason)
        else if pnl ≥ take_profit_percentage then (true, some (.takeProfit pnl))
        else (false, none)) = (false, none) ↔
        (¬(pnl ≤ -stop_loss_percentage) ∧ ¬(pnl ≥ take_profit_percentage))) := by
    intro pnl
    by_cases h1 : pnl ≤ -stop_loss_percentage
    · have h2 : ¬(pnl ≥ take_profit_percentage) := by
        rw [stop_loss_percentage] at h1
        rw [ge_iff_le, take_profit_percentage]
        intro hc
        linarith
      simp [h1, h2]
    · by_cases h2 : pnl ≥ take_profit_percentage
      · simp [h1, h2]
      · simp [h1, h2]
  refine ⟨?_, ?_, ?_, ?_, ?_⟩
  · intro hlong
    rw [should_exit, if_pos hlong, check_long_exit]
    exact key ((c - e) / e)
  · intro hshort
    rw [should_exit, if_neg hshort, check_short_exit]
    exact key ((e - c) / e)
  · with_unfolding_all decide
  · with_unfolding_all decide
  · with_unfolding_all decide

/-- Witness for C5 at a concrete long position. -/
theorem should_exit_thresholds_witness :
    should_exit 100 (195/2) 1 "buy" =
      (true, some (.stopLoss ((195/2 - 100) / 100))) ∧
    should_exit 100 101 1 "buy" = (false, none) :=
  ⟨((should_exit_thresholds 100 (195/2) 1 "buy").1
      (by with_unfolding_all decide)).1.mpr (by norm_num [stop_loss_percentage]),
   (should_exit_thresholds 100 101 1 "buy").2.2.2.2⟩

/-! ### C2: trailing-stop ratchet invariant -/

/-- One `update_trailing_stop` call never decreases a tracked symbol's stored
stop. -/
lemma update_trailing_stop_mono (st : TrailingStops) (sym sym' : String)
    (p v : ℚ) (h : st sym = some v) :
    ∃ w, update_trailing_stop st sym' p sym = some w ∧ v ≤ w := by
  unfold update_trailing_stop
  cases hcur : st sym' with
  | none =>
      by_cases hs : sym = sym'
      · subst hs; rw [h] at hcur; cases hcur
      · exact ⟨v, by simp only [if_neg hs, h], le_refl v⟩
  | some old =>
      simp only
      by_cases hgt : p * (1 - trailing_stop_percentage) > old
      · rw [if_pos hgt]
        by_cases hs : sym = sym'
        · subst hs
          rw [h] at hcur
          injection hcur with he
          subst he
          exact ⟨_, by simp, le_of_lt hgt⟩
        · exact ⟨v, by simp only [if_neg hs, h], le_refl v⟩
      · rw [if_neg hgt]
        exact ⟨v, h, le_refl v⟩

/-- C2: across any sequence of `update_trailing_stop` calls, a tracked
symbol's stored stop never decreases; in the concrete scenario
`register_entry(A,100)`, `update(A,105)`, `update(A,102)` the stored stop is
the one set by the `105` update. -/
theorem trailing_stop_ratchet (stops : TrailingStops) (sym : String) (v : ℚ)
    (h : stops sym = some v) (calls : List (String × ℚ)) :
    (∃ w, (calls.foldl (fun st c => update_trailing_stop st c.1 c.2) stops) sym
        = some w ∧ v ≤ w) ∧
    update_trailing_stop
        (update_trailing_stop (register_entry (fun _ => none) "A" 100) "A" 105)
        "A" 102 "A"
      = some (105 * (1 - trailing_stop_percentage)) := by
  constructor
  · induction calls generalizing stops v with
    | nil => exact ⟨v, h, le_refl v⟩
    | cons hd tl ih =>
        obtain ⟨w, hw, hvw⟩ := update_trailing_stop_mono stops sym hd.1 hd.2 v h
        obtain ⟨w', hw', hww'⟩ := ih _ w hw
        exact ⟨w', hw', le_trans hvw hww'⟩
  · norm_num [update_trailing_stop, register_entry, trailing_stop_percentage]

/-- Witness for C2 at a concrete tracked state and call sequence. -/
theorem trailing_stop_ratchet_witness :
    ∃ w, ([("B", 60), ("C", 10), ("B", 55)].foldl
        (fun st c => update_trailing_stop st c.1 c.2)
        (register_entry (fun _ => none) "B" 50)) "B" = some w ∧
      50 * (1 - trailing_stop_percentage) ≤ w :=
  (trailing_stop_ratchet (register_entry (fun _ => none) "B" 50) "B"
    (50 * (1 - trailing_stop_percentage)) (by norm_num [register_entry])
    [("B", 60), ("C", 10), ("B", 55)]).1

/-! ### C10: get_risk_summary and division by zero -/

/-- C10 counterexample: with today's row holding a negative P&L and a zero
(or `NULL`) portfolio value, `get_risk_summary` does divide by zero — the
`can_trade` entry calls `_check_daily_loss_limit`, whose
`abs(total_pnl) / portfolio_value` raises, so the call returns no record at
all instead of the zero-guarded record the claim asserts. -/
theorem get_risk_summary_divzero_cex :
    get_risk_summary ⟨some ⟨-5, 0, 3, 2⟩, [], [], fun _ _ => []⟩ = none ∧
    check_daily_loss_limit ⟨some ⟨-5, 0, 3, 2⟩, [], [], fun _ _ => []⟩ =
      none := by
  constructor <;> with_unfolding_all decide

/-- C10 amended: every record `get_risk_summary` actually returns is
zero-guarded — an absent snapshot gives all-zero absolute and percentage
fields, and a zero stored portfolio value gives zero percentage fields instead
of a quotient — but when today's row has a negative P&L together with a zero
(or `NULL`) portfolio value, the daily-loss check reached through `can_trade`
divides by zero, the call raises, and no record is returned. -/
theorem get_risk_summary_zero_guards (db : Db) :
    (∀ r, get_risk_summary db = some r →
      (db.todayMetrics = none →
        r.portfolio_value = 0 ∧ r.daily_pnl = 0 ∧ r.current_drawdown = 0 ∧
        r.exposure = 0 ∧ r.daily_pnl_pct = 0 ∧ r.current_drawdown_pct = 0 ∧
        r.exposure_pct = 0) ∧
      (∀ m, db.todayMetrics = some m → m.portfolio_value = 0 →
        r.daily_pnl_pct = 0 ∧ r.current_drawdown_pct = 0 ∧
        r.exposure_pct = 0)) ∧
    (∀ m, db.todayMetrics = some m → m.total_pnl < 0 →
      m.portfolio_value = 0 → get_risk_summary db = none) := by
  refine ⟨?_, ?_⟩
  · intro r hr
    constructor
    · intro h
      cases hd : check_max_drawdown db with
      | none =>
          rw [get_risk_summary] at hr
          simp [check_daily_loss_limit, h, hd] at hr
      | some dd =>
          rw [get_risk_summary] at hr
          simp [check_daily_loss_limit, h, hd] at hr
          subst hr
          simp
    · intro m hm hpv
      by_cases hpnl : m.total_pnl < 0
      · rw [get_risk_summary] at hr
        simp [check_daily_loss_limit, hm, hpnl, hpv] at hr
      · cases hd : check_max_drawdown db with
        | none =>
            rw [get_risk_summary] at hr
            simp [check_daily_loss_limit, hm, hpnl, hpv, hd] at hr
        | some dd =>
            rw [get_risk_summary] at hr
            simp [check_daily_loss_limit, hm, hpnl, hpv, hd] at hr
            subst hr
            simp [hpv]
  · intro m hm hpnl hpv
    rw [get_risk_summary]
    simp [check_daily_loss_limit, hm, hpnl, hpv]

/-- Witness for C10's amended theorem: the crash state returns no record, and
on the empty store the concrete returned record has zero percentage fields. -/
theorem get_risk_summary_zero_guards_witness :
    get_risk_summary ⟨some ⟨-5, 0, 3, 2⟩, [], [], fun _ _ => []⟩ = none ∧
    (⟨0, 0, 0, 0, 0, 0, 0, daily_loss_limit * 100, max_drawdown_limit * 100,
      max_portfolio_exposure * 100, true⟩ : RiskSummary).daily_pnl_pct = 0 ∧
    (⟨0, 0, 0, 0, 0, 0, 0, daily_loss_limit * 100, max_drawdown_limit * 100,
      max_portfolio_exposure * 100, true⟩ : RiskSummary).exposure_pct = 0 := by
  have hrec : get_risk_summary ⟨none, [], [], fun _ _ => []⟩ =
      some ⟨0, 0, 0, 0, 0, 0, 0, daily_loss_limit * 100,
        max_drawdown_limit * 100, max_portfolio_exposure * 100, true⟩ := by
    with_unfolding_all decide
  refine ⟨(get_risk_summary_zero_guards
      ⟨some ⟨-5, 0, 3, 2⟩, [], [], fun _ _ => []⟩).2 ⟨-5, 0, 3, 2⟩ rfl
      (by norm_num) rfl, ?_, ?_⟩
  · exact (((get_risk_summary_zero_guards ⟨none, [], [], fun _ _ => []⟩).1 _
      hrec).1 rfl).2.2.2.2.1
  · exact (((get_risk_summary_zero_guards ⟨none, [], [], fun _ _ => []⟩).1 _
      hrec).1 rfl).2.2.2.2.2.2

/-! ### C1: the five gates of can_open_position -/

/-- C1: `can_open_position` evaluates the daily-loss, drawdown,
single-position-size, exposure and correlation gates in that order,
short-circuiting on the first failure with that gate's reason; an oversized
position is rejected with the position-size reason irrespective of the
exposure and correlation gates; `(true, none)` is returned iff all five gates
pass. -/
theorem can_open_position_gate_order (db : Db) (sym side : String)
    (q price av : ℚ) :
    (check_daily_loss_limit db = some false →
      can_open_position db sym side q price av =
        some (false, some .dailyLoss)) ∧
    (check_daily_loss_limit db = some true →
      check_max_drawdown db = some false →
      can_open_position db sym side q price av =
        some (false, some .drawdown)) ∧
    (check_daily_loss_limit db = some true →
      check_max_drawdown db = some true →
      q * price > av * max_position_size →
      can_open_position db sym side q price av =
        some (false, some (.positionSize (max_position_size * 100)))) ∧
    (check_daily_loss_limit db = some true →
      check_max_drawdown db = some true →
      ¬(q * price > av * max_position_size) →
      check_exposure_limit (q * price) av = false →
      can_open_position db sym side q price av =
        some (false, some (.exposure (max_portfolio_exposure * 100)))) ∧
    (check_daily_loss_limit db = some true →
      check_max_drawdown db = some true →
      ¬(q * price > av * max_position_size) →
      check_exposure_limit (q * price) av = true →
      check_correlation_limit db sym = false →
      can_open_position db sym side q price av =
        some (false, some .correlation)) ∧
    (check_daily_loss_limit db = none →
      can_open_position db sym side q price av = none) ∧
    (can_open_position db sym side q price av = some (true, none) ↔
      (check_daily_loss_limit db = some true ∧
       check_max_drawdown db = some true ∧
       ¬(q * price > av * max_position_size) ∧
       check_exposure_limit (q * price) av = true ∧
       check_correlation_limit db sym = true)) := by
  unfold can_open_position
  refine ⟨?_, ?_, ?_, ?_, ?_, ?_, ?_⟩
  · intro h1
    simp [h1]
  · intro h1 h2
    simp [h1, h2]
  · intro h1 h2 h3
    simp [h1, h2, h3]
  · intro h1 h2 h3 h4
    simp [h1, h2, h3, h4]
  · intro h1 h2 h3 h4 h5
    simp [h1, h2, h3, h4, h5]
  · intro h1
    simp [h1]
  · cases h1 : check_daily_loss_limit db with
    | none => simp [h1]
    | some dl =>
        cases dl
        · simp [h1]
        · cases h2 : check_max_drawdown db with
          | none => simp [h1, h2]
          | some dd =>
              cases dd
              · simp [h1, h2]
              · by_cases h3 : q * price > av * max_position_size
                · simp [h1, h2, h3]
                · cases h4 : check_exposure_limit (q * price) av
                  · simp [h1, h2, h3, h4]
                  · cases h5 : check_correlation_limit db sym
                    · simp [h1, h2, h3, h4, h5]
                    · simp [h1, h2, h3, h4, h5]

/-- Witness for C1: on an empty database an oversized proposal is rejected
with the position-size reason. -/
theorem can_open_position_gate_order_witness :
    can_open_position ⟨none, [], [], fun _ _ => []⟩ "AAPL" "buy" 100 175
        100000 =
      some (false, some (.positionSize (max_position_size * 100))) :=
  (can_open_position_gate_order ⟨none, [], [], fun _ _ => []⟩ "AAPL" "buy"
    100 175 100000).2.2.1 rfl rfl
    (by norm_num [max_position_size])

/-! ### C7: calculate_portfolio_beta defaults -/

/-- C7 counterexample: with no open positions `calculate_portfolio_beta`
returns `0.0`, not the neutral default `1.0` the claim asserts for every
no-contribution case. -/
theorem portfolio_beta_no_positions_cex :
    calculate_portfolio_beta ⟨none, [], [], fun _ _ => []⟩ "SPY" = 0 ∧
    calculate_portfolio_beta ⟨none, [], [], fun _ _ => []⟩ "SPY" ≠ 1 := by
  constructor <;> norm_num [calculate_portfolio_beta]

/-- C7 amended: `calculate_portfolio_beta` returns the market-value-weighted
sum of the per-position betas when at least one position contributes, the
neutral default `1.0` when positions exist but none contributes (including
fewer than 2 benchmark price points), and `0.0` when there are no open
positions at all. -/
theorem calculate_portfolio_beta_defaults (db : Db) (bench : String) :
    (db.positions.filter (fun p => 0 < p.quantity) = [] →
      calculate_portfolio_beta db bench = 0) ∧
    (db.positions.filter (fun p => 0 < p.quantity) ≠ [] →
      (get_price_history db bench 90).length < 2 →
      calculate_portfolio_beta db bench = 1) ∧
    (db.positions.filter (fun p => 0 < p.quantity) ≠ [] →
      ¬((get_price_history db bench 90).length < 2) →
      portfolioBetaTerms db (simpleReturns (get_price_history db bench 90))
        (((db.positions.filter fun p => 0 < p.quantity).map
          PositionRow.market_value).sum) = [] →
      calculate_portfolio_beta db bench = 1) ∧
    (db.positions.filter (fun p => 0 < p.quantity) ≠ [] →
      ¬((get_price_history db bench 90).length < 2) →
      portfolioBetaTerms db (simpleReturns (get_price_history db bench 90))
        (((db.positions.filter fun p => 0 < p.quantity).map
          PositionRow.market_value).sum) ≠ [] →
      calculate_portfolio_beta db bench =
        (portfolioBetaTerms db (simpleReturns (get_price_history db bench 90))
          (((db.positions.filter fun p => 0 < p.quantity).map
            PositionRow.market_value).sum)).sum) := by
  unfold calculate_portfolio_beta
  refine ⟨?_, ?_, ?_, ?_⟩
  · intro h1
    simp [h1]
  · intro h1 h2
    simp [h1, h2]
  · intro h1 h2 h3
    simp [h1, h2, h3]
  · intro h1 h2 h3
    simp [h1, h2, h3]

/-- Witness for C7's amended theorem: one open position but no benchmark data
gives the neutral beta `1`. -/
theorem calculate_portfolio_beta_defaults_witness :
    calculate_portfolio_beta
      ⟨none, [], [⟨"A", 1, 50, some 100⟩], fun _ _ => []⟩ "SPY" = 1 :=
  (calculate_portfolio_beta_defaults
    ⟨none, [], [⟨"A", 1, 50, some 100⟩], fun _ _ => []⟩ "SPY").2.1
    (by with_unfolding_all decide) (by with_unfolding_all decide)

/-! ### C8: calculate_var -/

/-- C8 counterexample: a position whose `current_price` is `NULL` is scaled
by `0`, not by its §3 market value (which would fall back to the average
cost): on this state the code returns VaR `0` while the claim's description
(`calculate_var_per_spec`) yields `5`. -/
theorem calculate_var_fallback_cex :
    calculate_var
        ⟨none, [], [⟨"A", 1, 50, none⟩],
          fun s _ => if s = "A" then [100, 110] else []⟩ (19/20) = 0 ∧
    calculate_var_per_spec
        ⟨none, [], [⟨"A", 1, 50, none⟩],
          fun s _ => if s = "A" then [100, 110] else []⟩ (19/20) = 5 ∧
    calculate_var
        ⟨none, [], [⟨"A", 1, 50, none⟩],
          fun s _ => if s = "A" then [100, 110] else []⟩ (19/20) ≠
      calculate_var_per_spec
        ⟨none, [], [⟨"A", 1, 50, none⟩],
          fun s _ => if s = "A" then [100, 110] else []⟩ (19/20) := by
  refine ⟨?_, ?_, ?_⟩ <;> with_unfolding_all decide

/-- C8 amended: `calculate_var` pools, over open positions with at least two
price points, the simple returns scaled by
`quantity * current_price if current_price else 0` (no fallback to average
cost), returns the absolute `(1-confidence)`-percentile of the pooled sample,
`0` with no positions or no usable data, and is always nonnegative. -/
theorem calculate_var_characterization (db : Db) (confidence : ℚ) :
    (db.positions.filter (fun p => 0 < p.quantity) = [] →
      calculate_var db confidence = 0) ∧
    (varPooledReturns db = [] → calculate_var db confidence = 0) ∧
    (db.positions.filter (fun p => 0 < p.quantity) ≠ [] →
      varPooledReturns db ≠ [] →
      calculate_var db confidence =
        |percentile (varPooledReturns db) ((1 - confidence) * 100)|) ∧
    0 ≤ calculate_var db confidence := by
  unfold calculate_var
  refine ⟨?_, ?_, ?_, ?_⟩
  · intro h1
    simp [h1]
  · intro h1
    simp [h1]
  · intro h1 h2
    simp [h1, h2]
  · by_cases h1 : db.positions.filter (fun p => 0 < p.quantity) = []
    · simp [h1]
    · by_cases h2 : varPooledReturns db = []
      · simp [h1, h2]
      · simp only [if_neg h1, if_neg h2]
        exact abs_nonneg _

/-- Witness for C8's amended theorem on a state with one priced position. -/
theorem calculate_var_characterization_witness :
    calculate_var
        ⟨none, [], [⟨"A", 1, 50, some 100⟩],
          fun s _ => if s = "A" then [100, 110] else []⟩ (19/20) =
      |percentile (varPooledReturns
        ⟨none, [], [⟨"A", 1, 50, some 100⟩],
          fun s _ => if s = "A" then [100, 110] else []⟩) ((1 - 19/20) * 100)| :=
  (calculate_var_characterization
    ⟨none, [], [⟨"A", 1, 50, some 100⟩],
      fun s _ => if s = "A" then [100, 110] else []⟩ (19/20)).2.2.1
    (by with_unfolding_all decide) (by with_unfolding_all decide)

/-! ### C9: check_correlation_limit -/

/-- The computable square comparison decides the real comparison
`|pearson| > c` for any nonnegative bound `c`. -/
lemma pearsonAbsGT_iff (c : ℚ) (hc : 0 ≤ c) (xs ys : List ℚ) :
    pearsonAbsGT c xs ys = true ↔ |pearson xs ys| > (c : ℝ) := by
  unfold pearsonAbsGT pearson
  by_cases h : sXY xs xs = 0 ∨ sXY ys ys = 0
  · rw [if_pos h, if_pos h]
    simp only [abs_zero]
    constructor
    · intro hfalse
      exact absurd hfalse (by simp)
    · intro hlt
      exact absurd hlt (not_lt.mpr (by exact_mod_cast hc))
  · rw [if_neg h, if_neg h]
    push_neg at h
    obtain ⟨ha, hb⟩ := h
    have hxx : (0:ℚ) < sXY xs xs :=
      lt_of_le_of_ne (sXY_self_nonneg xs) (Ne.symm ha)
    have hyy : (0:ℚ) < sXY ys ys :=
      lt_of_le_of_ne (sXY_self_nonneg ys) (Ne.symm hb)
    have hxxR : (0:ℝ) < (sXY xs xs : ℝ) := by exact_mod_cast hxx
    have hyyR : (0:ℝ) < (sXY ys ys : ℝ) := by exact_mod_cast hyy
    have hD : (0:ℝ) <
        Real.sqrt (sXY xs xs : ℚ) * Real.sqrt (sXY ys ys : ℚ) :=
      mul_pos (Real.sqrt_pos.mpr hxxR) (Real.sqrt_pos.mpr hyyR)
    have hD2 : (Real.sqrt (sXY xs xs : ℚ) * Real.sqrt (sXY ys ys : ℚ)) ^ 2 =
        (sXY xs xs : ℝ) * (sXY ys ys : ℝ) := by
      rw [mul_pow, Real.sq_sqrt hxxR.le, Real.sq_sqrt hyyR.le]
    rw [decide_eq_true_eq, abs_div, abs_of_pos hD]
    simp only [gt_iff_lt]
    rw [lt_div_iff hD]
    have hcd : (0:ℝ) ≤
        (c : ℝ) * (Real.sqrt (sXY xs xs : ℚ) * Real.sqrt (sXY ys ys : ℚ)) :=
      mul_nonneg (by exact_mod_cast hc) hD.le
    constructor
    · intro hsq
      have hq : (c:ℝ) ^ 2 * ((sXY xs xs : ℝ) * (sXY ys ys : ℝ)) <
          (sXY xs ys : ℝ) ^ 2 := by exact_mod_cast hsq
      have hlt2 : ((c:ℝ) *
          (Real.sqrt (sXY xs xs : ℚ) * Real.sqrt (sXY ys ys : ℚ))) ^ 2 <
          |(sXY xs ys : ℝ)| ^ 2 := by
        rw [mul_pow, hD2, sq_abs]
        exact hq
      exact lt_of_pow_lt_pow_left 2 (abs_nonneg _) hlt2
    · intro hlt
      have hlt2 : ((c:ℝ) *
          (Real.sqrt (sXY xs xs : ℚ) * Real.sqrt (sXY ys ys : ℚ))) ^ 2 <
          |(sXY xs ys : ℝ)| ^ 2 := by
        exact pow_lt_pow_left hlt hcd (by norm_num)
      rw [mul_pow, hD2, sq_abs] at hlt2
      exact_mod_cast hlt2

/-- `_calculate_correlation` is `0` when the first series is empty. -/
lemma calculate_correlation_left_empty (p2 : List ℚ) :
    calculate_correlation [] p2 = 0 := by
  unfold calculate_correlation
  rw [if_pos (Or.inl rfl)]

/-- `_calculate_correlation` is `0` when the second series is empty. -/
lemma calculate_correlation_right_empty (p1 : List ℚ) :
    calculate_correlation p1 [] = 0 := by
  unfold calculate_correlation
  rw [if_pos (Or.inr rfl)]

/-- `_calculate_correlation` is exactly `0` below 5 aligned points. -/
lemma calculate_correlation_short (p1 p2 : List ℚ)
    (h : min p1.length p2.length < 5) : calculate_correlation p1 p2 = 0 := by
  unfold calculate_correlation
  by_cases h0 : p1 = [] ∨ p2 = []
  · rw [if_pos h0]
  · rw [if_neg h0]
    simp only [if_pos h]

/-- The computable comparison decides `|calculate_correlation| > c` for a
nonnegative bound. -/
lemma correlationAbsGT_iff (c : ℚ) (hc : 0 ≤ c) (p1 p2 : List ℚ) :
    correlationAbsGT c p1 p2 = true ↔
      |calculate_correlation p1 p2| > (c : ℝ) := by
  have habs0 : ¬ |(0:ℝ)| > (c:ℝ) := by
    simp only [abs_zero, gt_iff_lt, not_lt]
    exact_mod_cast hc
  by_cases h0 : p1 = [] ∨ p2 = []
  · rw [show calculate_correlation p1 p2 = 0 by
        unfold calculate_correlation; rw [if_pos h0]]
    unfold correlationAbsGT
    rw [if_pos h0]
    simp only [Bool.false_eq_true, false_iff]
    exact habs0
  · by_cases h5 : min p1.length p2.length < 5
    · rw [calculate_correlation_short p1 p2 h5]
      unfold correlationAbsGT
      rw [if_neg h0]
      simp only [if_pos h5, Bool.false_eq_true, false_iff]
      exact habs0
    · unfold correlationAbsGT calculate_correlation
      rw [if_neg h0, if_neg h0]
      simp only [if_neg h5]
      by_cases hlen :
          0 < (simpleReturns
            (p1.drop (p1.length - min p1.length p2.length))).length ∧
          0 < (simpleReturns
            (p2.drop (p2.length - min p1.length p2.length))).length
      · simp only [if_pos hlen]
        exact pearsonAbsGT_iff c hc _ _
      · simp only [if_neg hlen, Bool.false_eq_true, false_iff]
        exact habs0

/-- The body of the `check_correlation_limit` loop for one held symbol agrees
with the real-valued correlation bound. -/
lemma corr_pair_iff (db : Db) (new_symbol sym : String) :
    ((if get_price_history db sym 30 = [] then true
      else !correlationAbsGT max_correlation
        (get_price_history db new_symbol 30)
        (get_price_history db sym 30)) = true) ↔
    |calculate_correlation (get_price_history db new_symbol 30)
        (get_price_history db sym 30)| ≤ (max_correlation : ℝ) := by
  have hc : (0:ℚ) ≤ max_correlation := by norm_num [max_correlation]
  by_cases hep : get_price_history db sym 30 = []
  · rw [if_pos hep, hep, calculate_correlation_right_empty]
    simp only [abs_zero, true_iff]
    exact_mod_cast hc
  · rw [if_neg hep, Bool.not_eq_true']
    constructor
    · intro h
      by_contra hcon
      push_neg at hcon
      have hb := (correlationAbsGT_iff max_correlation hc
        (get_price_history db new_symbol 30)
        (get_price_history db sym 30)).mpr hcon
      rw [h] at hb
      exact absurd hb (by simp)
    · intro h
      cases hb : correlationAbsGT max_correlation
          (get_price_history db new_symbol 30) (get_price_history db sym 30)
      · rfl
      · exact absurd ((correlationAbsGT_iff max_correlation hc
          (get_price_history db new_symbol 30)
          (get_price_history db sym 30)).mp hb) (not_lt.mpr h)

/-- C9: `check_correlation_limit` passes iff no held symbol's correlation
with the candidate exceeds `max_correlation` in absolute value; fewer than 5
aligned points always give correlation exactly `0`; with no open positions the
check is vacuously true. -/
theorem check_correlation_limit_spec (db : Db) (new_symbol : String) :
    (check_correlation_limit db new_symbol = true ↔
      ∀ p ∈ db.positions, 0 < p.quantity →
        |calculate_correlation (get_price_history db new_symbol 30)
            (get_price_history db p.symbol 30)| ≤ (max_correlation : ℝ)) ∧
    (∀ q1 q2 : List ℚ, min q1.length q2.length < 5 →
      calculate_correlation q1 q2 = 0) ∧
    (db.positions.filter (fun p => 0 < p.quantity) = [] →
      check_correlation_limit db new_symbol = true) := by
  have hc : (0:ℚ) ≤ max_correlation := by norm_num [max_correlation]
  refine ⟨?_, fun q1 q2 h => calculate_correlation_short q1 q2 h, ?_⟩
  · unfold check_correlation_limit
    by_cases hpos : db.positions.filter (fun p => 0 < p.quantity) = []
    · constructor
      · intro _ p hp hq
        have hmem : p ∈ db.positions.filter (fun p => 0 < p.quantity) :=
          List.mem_filter.mpr ⟨hp, by simpa using hq⟩
        rw [hpos] at hmem
        exact absurd hmem (List.not_mem_nil p)
      · intro _
        simp [hpos]
    · rw [if_neg hpos]
      by_cases hnew : get_price_history db new_symbol 30 = []
      · rw [if_pos hnew]
        simp only [true_iff]
        intro p hp hq
        rw [hnew, calculate_correlation_left_empty]
        simp only [abs_zero]
        exact_mod_cast hc
      · rw [if_neg hnew]
        rw [List.all_eq_true]
        constructor
        · intro hall p hp hq
          have hmem : p.symbol ∈
              (db.positions.filter (fun p => 0 < p.quantity)).map
                (fun p => p.symbol) :=
            List.mem_map.mpr
              ⟨p, List.mem_filter.mpr ⟨hp, by simpa using hq⟩, rfl⟩
          exact (corr_pair_iff db new_symbol p.symbol).mp (hall _ hmem)
        · intro h s hs
          obtain ⟨p, hpmem, rfl⟩ := List.mem_map.mp hs
          obtain ⟨hp, hq⟩ := List.mem_filter.mp hpmem
          exact (corr_pair_iff db new_symbol p.symbol).mpr
            (h p hp (by simpa using hq))
  · intro hpos
    unfold check_correlation_limit
    simp [hpos]

/-- Witness for C9: a held position with zero quantity makes the check
vacuously pass, and a 2-point/1-point pair has correlation exactly 0. -/
theorem check_correlation_limit_spec_witness :
    check_correlation_limit
      ⟨none, [], [⟨"MSFT", 0, 10, none⟩], fun _ _ => []⟩ "AAPL" = true ∧
    calculate_correlation [1, 2] [3] = 0 :=
  ⟨(check_correlation_limit_spec
      ⟨none, [], [⟨"MSFT", 0, 10, none⟩], fun _ _ => []⟩ "AAPL").2.2
      (by with_unfolding_all decide),
   (check_correlation_limit_spec
      ⟨none, [], [⟨"MSFT", 0, 10, none⟩], fun _ _ => []⟩ "AAPL").2.1
      [1, 2] [3] (by norm_num)⟩

end TradingBot
